import Mathlib

/-!
# Verification of the CryptoCoven / OpenSea subgraph event-reconciliation logic

Shallow embedding of the mapping and helper code of the subgraph repository
(`src/utils/*.ts`, `src/helpers/*.ts`, `src/mappings/*.ts`).  Conventions:

* graph-ts `BigInt` is modelled as `Int` (arbitrary-precision signed integer);
  `BigDecimal` as `Rat`.
* graph-ts `Bytes` is modelled as `List Nat` (a byte list); `Bytes.empty` is
  `[]` and the zero address is twenty zero bytes.
* Entity ids are `String`s, built the way the source builds them
  (`toHex`/`toString` concatenation); the hex rendering is modelled by an
  injective rendering function, which is all the code relies on.
* The store is an association list per entity type; `entity.save()` is
  modelled as an explicit write into the store, so every function that calls
  `save()` takes and returns a store.  Functions that do not save return the
  mutated entity only.
* `log.warning` / `log.error` diagnostics are modelled, where a claim needs
  them, as an extra boolean in the result.
-/

/-- graph-ts `Bytes`: a byte list. -/
abbrev Bytes := List Nat

/-- `Bytes.empty` of graph-ts: the empty byte list. -/
def Bytes.emptyBytes : Bytes := []

/-- The zero address constant `ZERO_ADDRESS` (twenty zero bytes). -/
def ZERO_ADDRESS : Bytes := List.replicate 20 0

/-- Model of `Bytes.toHex()` / `toHexString()`: an injective rendering of a
byte list to a string.  The code only ever uses the rendering to build ids and
compare them, so any injective rendering is behaviourally faithful. -/
def bytesToHex (b : Bytes) : String :=
  "0x" ++ String.intercalate "." (b.map (fun n => Nat.repr n))

/-- Model of `BigInt.toString()`: decimal rendering of an integer. -/
def intToString (i : Int) : String := toString i

/-- Model of `BigInt.toHex()`: a distinct injective rendering of an integer
(the source renders in hexadecimal with an `0x` prefix). -/
def intToHex (i : Int) : String := "0x" ++ toString i

/-- Insert-or-replace for the association lists that model the store. -/
def upsert {α : Type} (k : String) (v : α) : List (String × α) → List (String × α)
  | [] => [(k, v)]
  | (k', v') :: t => if k' = k then (k, v) :: t else (k', v') :: upsert k v t

theorem lookup_upsert_self {α : Type} (k : String) (v : α) (l : List (String × α)) :
    List.lookup k (upsert k v l) = some v := by
  induction l with
  | nil => simp [upsert, List.lookup]
  | cons h t ih =>
    obtain ⟨k', v'⟩ := h
    by_cases hk : k' = k
    · simp [upsert, hk, List.lookup]
    · simp only [upsert, if_neg hk, List.lookup]
      have : (k == k') = false := by
        simp [beq_eq_false_iff_ne]
        exact fun h => hk h.symm
      simp [this, ih]

theorem lookup_upsert_ne {α : Type} (k k' : String) (v : α) (l : List (String × α))
    (h : k' ≠ k) : List.lookup k' (upsert k v l) = List.lookup k' l := by
  have hb : (k' == k) = false := beq_eq_false_iff_ne.mpr h
  induction l with
  | nil => simp [upsert, List.lookup, hb]
  | cons hd t ih =>
    obtain ⟨k₀, v₀⟩ := hd
    by_cases hk : k₀ = k
    · subst hk
      simp [upsert, List.lookup, hb]
    · simp only [upsert, if_neg hk, List.lookup]
      cases hbb : (k' == k₀) <;> simp [hbb, ih]

/-- The `BIGINT_ZERO` constant of `constant.ts`. -/
def BIGINT_ZERO : Int := 0

/-- The `BIGINT_ONE` constant of `constant.ts`. -/
def BIGINT_ONE : Int := 1

/-!
## Ethereum event model (the inputs delivered by the event collaborator)

`ethereum.Log`, `ethereum.TransactionReceipt` and the event base fields used
by the code (`event.transaction.hash`, `event.logIndex`, `event.block.*`,
`event.receipt`).  The `data` field of a log is modelled by the decoded `uint256`
payload that `ethereum.decode("uint256", log.data)` would produce (`none`
when the bytes do not decode).
-/

structure EthLog where
  address : Bytes
  topics : List Bytes
  data : Option Int
  logIndex : Int
deriving DecidableEq

structure TransactionReceipt where
  logs : List EthLog
deriving DecidableEq

/-- Model of `crypto.keccak256(ByteArray.fromUTF8("OrdersMatched(bytes32,bytes32,address,address,uint256,bytes32)"))`
(`ORDERS_MATCHED_EVENT_SIG` in `constant.ts`).  The code only compares topics
with it for equality, so a fixed distinguished 32-byte value is faithful. -/
def ORDERS_MATCHED_EVENT_SIG : Bytes := 1 :: List.replicate 31 0

/-- Model of `crypto.keccak256(ByteArray.fromUTF8("Transfer(address,address,uint256)"))`
(`TRANSFER_EVENT_SIG` in `constant.ts`), a second distinguished 32-byte value. -/
def TRANSFER_EVENT_SIG : Bytes := 2 :: List.replicate 31 0

/-- The fields of an ERC-721 `Transfer` event as the handlers read them. -/
structure TransferEvent where
  fromAddr : Bytes      -- event.params.from
  toAddr : Bytes        -- event.params.to
  tokenId : Int         -- event.params.tokenId
  txHash : Bytes        -- event.transaction.hash
  logIndex : Int        -- event.logIndex
  blockNumber : Int     -- event.block.number
  blockTimestamp : Int  -- event.block.timestamp
  blockHash : Bytes     -- event.block.hash
  receipt : Option TransactionReceipt  -- event.receipt
deriving DecidableEq

/-- The fields of an OpenSea `OrdersMatched` event as the handlers read them.
(`tokenId` appears because the draft handler `logic.ts/handleOrdersMatched`
reads `event.params.tokenId` on this event type.) -/
structure OrdersMatchedEvent where
  maker : Bytes         -- event.params.maker
  taker : Bytes         -- event.params.taker
  price : Int           -- event.params.price
  tokenId : Int         -- event.params.tokenId (read by the logic.ts draft)
  txHash : Bytes
  logIndex : Int
  blockNumber : Int
  blockTimestamp : Int
  receipt : Option TransactionReceipt
deriving DecidableEq

/-!
## The `src/utils/*` family (accountHelper.ts, logic.ts, tokenHelper.ts, transactionHelper.ts)
and the `src/mappings/transactions.ts` handlers built on them.
-/

namespace Utils

/-- The `Account` entity as `utils/accountHelper.ts#getOrCreateAccount` initialises it. -/
structure Account where
  id : String
  activityCount : Int
  mintCount : Int
  buyCount : Int
  saleCount : Int
  totalAmountBought : Int
  totalAmountSold : Int
  totalAmountBalance : Int
  blockNumber : Int
  blockTimestamp : Int
  isOG : Bool
  isCollector : Bool
  isHunter : Bool
  isFarmer : Bool
  isTrader : Bool
deriving DecidableEq

/-- The `TokenEvent` entity of `utils/tokenHelper.ts#getOrCreateTokenEvent`. -/
structure TokenEvent where
  id : String
  contractAddress : Bytes
  tokenId : Int
deriving DecidableEq

/-- The `CovenToken` entity as the two-argument `getOrCreateCovenToken`
(the `utils/helpers.ts` draft) initialises it.  `owner` and `tokenId` are not
assigned at creation; they are modelled with zero defaults. -/
structure CovenToken where
  id : String
  referenceId : String
  blockNumber : Int
  blockHash : Bytes
  txHash : Bytes
  timestamp : Int
  owner : String
  tokenId : Int
deriving DecidableEq

/-- An `AccountHistory` record as `utils/accountHelper.ts#analyzeHistoricalData`
reads it (only the three counters are consulted). -/
structure AccountHistoryRec where
  mintCount : Int
  buyCount : Int
  saleCount : Int
deriving DecidableEq

/-- The `Transaction` entity as `utils/logic.ts#loadOrCreateTransaction`
initialises it (`from`/`to` are rendered `fromAddr`/`toAddr` because `from`
is reserved in Lean). -/
structure LTransaction where
  id : String
  account : String
  type : String
  fromAddr : Bytes
  toAddr : Bytes
  tokenId : Int
  buyer : Bytes
  seller : Bytes
  nft : String
  nftSalePrice : Int
  totalSold : Int
  blockNumber : Int
  blockTimestamp : Int
  totalSalesVolume : Int
  averageSalePrice : Int
  totalSalesCount : Int
  highestSalePrice : Int
  lowestSalePrice : Int
deriving DecidableEq

/-- The `Transaction` entity as `utils/transactionHelper.ts#getOrCreateTransaction`
initialises it.  The source leaves `transactionCount` and `totalSalesCount`
unassigned at creation; they are modelled with zero defaults. -/
structure TTransaction where
  id : String
  transactionType : String
  transactionCount : Int
  totalNFTsSold : Int
  totalSalesVolume : Int
  averageSalePrice : Int
  totalSalesCount : Int
  highestSalePrice : Int
  lowestSalePrice : Int
  blockNumber : Int
  blockTimestamp : Int
deriving DecidableEq

/-- The store seen by the `utils` family, one table per entity shape the
drafts use. -/
structure Store where
  accounts : List (String × Account)
  transactions : List (String × LTransaction)
  txnRecords : List (String × TTransaction)
  tokenEvents : List (String × TokenEvent)
  covenTokens : List (String × CovenToken)
  histories : List (String × AccountHistoryRec)
deriving DecidableEq

def emptyStore : Store :=
  { accounts := [], transactions := [], txnRecords := [], tokenEvents := [],
    covenTokens := [], histories := [] }

/-- `account.save()`: write the account into the store under its id. -/
def saveAccount (s : Store) (a : Account) : Store :=
  { s with accounts := upsert a.id a s.accounts }

/-- `transaction.save()` for the logic.ts transaction shape. -/
def saveLTransaction (s : Store) (t : LTransaction) : Store :=
  { s with transactions := upsert t.id t s.transactions }

/-- `transaction.save()` for the transactionHelper.ts transaction shape. -/
def saveTTransaction (s : Store) (t : TTransaction) : Store :=
  { s with txnRecords := upsert t.id t s.txnRecords }

/-- `covenToken.save()`. -/
def saveCovenToken (s : Store) (t : CovenToken) : Store :=
  { s with covenTokens := upsert t.id t s.covenTokens }

/-- `utils/tokenHelper.ts#getGlobalId`: transaction hash, a hyphen, the log
index.  The source reads `event.transaction.hash` and `event.logIndex`; the
model takes those two fields directly. -/
def getGlobalId (txHash : Bytes) (logIndex : Int) : String :=
  bytesToHex txHash ++ "-" ++ intToString logIndex

/-- The two-argument `getGlobalId(event, accountId)` of the `utils/helpers.ts`
draft: hash, hyphen, log index, hyphen, the extra id. -/
def getGlobalId2 (txHash : Bytes) (logIndex : Int) (accountId : String) : String :=
  bytesToHex txHash ++ "-" ++ intToString logIndex ++ "-" ++ accountId

/-- `utils/accountHelper.ts#getOrCreateAccount`: load by address hex, else a
fresh zeroed account.  The `field || BIGINT_ZERO` re-assignments performed on
a loaded account are identities (no field is null in the model) and are
omitted. -/
def getOrCreateAccount (s : Store) (accountAddress : Bytes) : Account :=
  match List.lookup (bytesToHex accountAddress) s.accounts with
  | some account => account
  | none =>
    { id := bytesToHex accountAddress
      activityCount := BIGINT_ZERO, mintCount := BIGINT_ZERO
      buyCount := BIGINT_ZERO, saleCount := BIGINT_ZERO
      totalAmountBought := BIGINT_ZERO, totalAmountSold := BIGINT_ZERO
      totalAmountBalance := BIGINT_ZERO
      blockNumber := BIGINT_ZERO, blockTimestamp := BIGINT_ZERO
      isOG := false, isCollector := false, isHunter := false
      isFarmer := false, isTrader := false }

/-- `utils/accountHelper.ts#updateAccountStatistics` (no save inside). -/
def updateAccountStatistics (account : Account) (isMint : Bool)
    (isBuy : Bool := false) (isSale : Bool := false) : Account :=
  let account :=
    if isMint then { account with mintCount := account.mintCount + BIGINT_ONE }
    else if isBuy then { account with buyCount := account.buyCount + BIGINT_ONE }
    else if isSale then { account with saleCount := account.saleCount + BIGINT_ONE }
    else account
  { account with activityCount := account.activityCount + BIGINT_ONE }

/-- `utils/accountHelper.ts#updateAccountTypes`: recompute the five flags as
independent boolean expressions from the three counters, then `save()`. -/
def updateAccountTypes (s : Store) (account : Account) : Account × Store :=
  let mintCount := account.mintCount
  let buyCount := account.buyCount
  let saleCount := account.saleCount
  let account := { account with
    isOG := decide (BIGINT_ZERO < mintCount) && decide (buyCount = BIGINT_ZERO)
              && decide (saleCount = BIGINT_ZERO)
    isCollector := (decide (BIGINT_ZERO < mintCount) || decide (BIGINT_ZERO < buyCount))
              && decide (saleCount = BIGINT_ZERO)
    isHunter := decide (BIGINT_ZERO < mintCount) && decide (buyCount = BIGINT_ZERO)
              && decide (BIGINT_ZERO < saleCount)
    isFarmer := decide (BIGINT_ZERO < mintCount) && decide (BIGINT_ZERO < buyCount)
              && decide (BIGINT_ZERO < saleCount)
    isTrader := decide (mintCount = BIGINT_ZERO)
              && (decide (BIGINT_ZERO < buyCount) || decide (BIGINT_ZERO < saleCount)) }
  (account, saveAccount s account)

/-- `utils/accountHelper.ts#updateTransactionStatistics`: running sale
aggregates on the transaction entity, then `save()`.  The `x || BIGINT_ZERO`
coalescings are identities in the model. -/
def updateTransactionStatistics (s : Store) (transaction : LTransaction)
    (salePrice : Int) : LTransaction × Store :=
  let transaction := { transaction with
    totalSalesVolume := transaction.totalSalesVolume + salePrice }
  let transaction := { transaction with
    totalSalesCount := transaction.totalSalesCount + BIGINT_ONE }
  let transaction :=
    if transaction.highestSalePrice < salePrice then
      { transaction with highestSalePrice := salePrice }
    else transaction
  let transaction :=
    if salePrice < transaction.lowestSalePrice ∨ transaction.lowestSalePrice = BIGINT_ZERO then
      { transaction with lowestSalePrice := salePrice }
    else transaction
  let transaction :=
    if BIGINT_ZERO < transaction.totalSalesCount then
      { transaction with
        averageSalePrice := Int.tdiv transaction.totalSalesVolume transaction.totalSalesCount }
    else transaction
  (transaction, saveLTransaction s transaction)

/-- `utils/accountHelper.ts#analyzeHistoricalData`: aggregate the
history records, recompute the five flags, and save the stored account if it
exists.  The source iterates `AccountHistory.load(accountId)` as a
collection of history records of the account; the model reads that record collection from the store. -/
def analyzeHistoricalData (s : Store) (accountId : String) : Store :=
  let records := (s.histories.filter (fun p => p.1 = accountId)).map (fun p => p.2)
  let mintCount := records.foldl (fun acc r => acc + r.mintCount) BIGINT_ZERO
  let buyCount := records.foldl (fun acc r => acc + r.buyCount) BIGINT_ZERO
  let saleCount := records.foldl (fun acc r => acc + r.saleCount) BIGINT_ZERO
  let isOG := decide (BIGINT_ZERO < mintCount) && decide (buyCount = BIGINT_ZERO)
                && decide (saleCount = BIGINT_ZERO)
  let isCollector := (decide (BIGINT_ZERO < mintCount) || decide (BIGINT_ZERO < buyCount))
                && decide (saleCount = BIGINT_ZERO)
  let isHunter := decide (BIGINT_ZERO < mintCount) && decide (buyCount = BIGINT_ZERO)
                && decide (BIGINT_ZERO < saleCount)
  let isFarmer := decide (BIGINT_ZERO < mintCount) && decide (BIGINT_ZERO < buyCount)
                && decide (BIGINT_ZERO < saleCount)
  let isTrader := decide (mintCount = BIGINT_ZERO)
                && (decide (BIGINT_ZERO < buyCount) || decide (BIGINT_ZERO < saleCount))
  match List.lookup accountId s.accounts with
  | none => s
  | some account =>
      saveAccount s { account with
        isOG := isOG, isCollector := isCollector, isHunter := isHunter
        isFarmer := isFarmer, isTrader := isTrader }

/-- `utils/tokenHelper.ts#getTokenId`: load the `TokenEvent` stored under
(hash, logIndex - 1) and return its token id, `null` when absent. -/
def getTokenId (s : Store) (txHash : Bytes) (logIndex : Int) : Option Int :=
  let previousLogIndex := logIndex - BIGINT_ONE
  let id := bytesToHex txHash ++ "-" ++ intToString previousLogIndex
  (List.lookup id s.tokenEvents).map (fun tokenEvent => tokenEvent.tokenId)

/-- `utils/tokenHelper.ts#getTokenOwner`: same load as `getTokenId`, returning
the `contractAddress` field of the record. -/
def getTokenOwner (s : Store) (txHash : Bytes) (logIndex : Int) : Option Bytes :=
  let previousLogIndex := logIndex - BIGINT_ONE
  let id := bytesToHex txHash ++ "-" ++ intToString previousLogIndex
  (List.lookup id s.tokenEvents).map (fun tokenEvent => tokenEvent.contractAddress)

/-- `utils/logic.ts#loadOrCreateTransaction`: load by id, else create a
zeroed transaction of the given type and `save()` it. -/
def loadOrCreateTransaction (s : Store) (id : String) (accountId : String)
    (type : String) : LTransaction × Store :=
  match List.lookup id s.transactions with
  | some transaction => (transaction, s)
  | none =>
    let transaction : LTransaction :=
      { id := id, account := accountId, type := type
        fromAddr := Bytes.emptyBytes, toAddr := Bytes.emptyBytes
        tokenId := 0, buyer := Bytes.emptyBytes, seller := Bytes.emptyBytes
        nft := "", nftSalePrice := 0, totalSold := 0
        blockNumber := 0, blockTimestamp := 0
        totalSalesVolume := 0, averageSalePrice := 0, totalSalesCount := 0
        highestSalePrice := 0, lowestSalePrice := 0 }
    (transaction, saveLTransaction s transaction)

end Utils

namespace Utils

/-- The two-argument `getOrCreateCovenToken(event, accountId)` of the
`utils/helpers.ts` draft: load by `getGlobalId(event, accountId)`, else create
with the provenance fields of the event (no save inside). -/
def getOrCreateCovenToken (s : Store) (txHash : Bytes) (logIndex : Int)
    (blockNumber : Int) (blockHash : Bytes) (blockTimestamp : Int)
    (accountId : String) : CovenToken :=
  let covenTokenId := getGlobalId2 txHash logIndex accountId
  match List.lookup covenTokenId s.covenTokens with
  | some covenToken => covenToken
  | none =>
    { id := covenTokenId, referenceId := covenTokenId
      blockNumber := blockNumber, blockHash := blockHash, txHash := txHash
      timestamp := blockTimestamp, owner := "", tokenId := 0 }

/-- `utils/transactionHelper.ts#getOrCreateTransaction`: load by
`getGlobalId(event, type)`, else create (no save inside). -/
def getOrCreateTransaction (s : Store) (txHash : Bytes) (logIndex : Int)
    (blockNumber : Int) (blockTimestamp : Int) (type : String) : TTransaction :=
  let transactionId := getGlobalId2 txHash logIndex type
  match List.lookup transactionId s.txnRecords with
  | some transaction => transaction
  | none =>
    { id := transactionId, transactionType := type
      transactionCount := 0, totalNFTsSold := BIGINT_ZERO
      totalSalesVolume := BIGINT_ZERO, averageSalePrice := BIGINT_ZERO
      totalSalesCount := 0
      highestSalePrice := BIGINT_ZERO, lowestSalePrice := BIGINT_ZERO
      blockNumber := blockNumber, blockTimestamp := blockTimestamp }

/-- `utils/transactionHelper.ts#updateTransactionAggregates`: increment the
transaction count, accumulate volume and sales count, recompute average,
highest and lowest, then `save()`. -/
def updateTransactionAggregates (s : Store) (transaction : TTransaction)
    (nftSalePrice : Int) : TTransaction × Store :=
  let transaction := { transaction with
    transactionCount := transaction.transactionCount + BIGINT_ONE }
  let transaction := { transaction with
    totalSalesVolume := transaction.totalSalesVolume + nftSalePrice }
  let transaction := { transaction with
    totalSalesCount := transaction.totalSalesCount + BIGINT_ONE }
  let transaction :=
    if BIGINT_ZERO < transaction.totalSalesCount then
      { transaction with
        averageSalePrice := Int.tdiv transaction.totalSalesVolume transaction.totalSalesCount }
    else transaction
  let transaction :=
    if transaction.highestSalePrice < nftSalePrice then
      { transaction with highestSalePrice := nftSalePrice }
    else transaction
  let transaction :=
    if transaction.lowestSalePrice = BIGINT_ZERO ∨ nftSalePrice < transaction.lowestSalePrice then
      { transaction with lowestSalePrice := nftSalePrice }
    else transaction
  (transaction, saveTTransaction s transaction)

/-- `utils/transactionHelper.ts#createOrdersMatched`: recover the token id and
the previous owner from the `TokenEvent` stored one log index earlier; on
either failure `log.error` and return (no store write).  On success create the
trade transaction and apply the buyer/seller statistics.  The fourth argument
of `updateAccountStatistics(account, false, _, salePrice)` is a non-null
`BigInt` reference used where a boolean is expected, hence `true` in the
model. -/
def createOrdersMatched (s : Store) (event : OrdersMatchedEvent) : Store :=
  match getTokenId s event.txHash event.logIndex with
  | none => s
  | some _ =>
    match getTokenOwner s event.txHash event.logIndex with
    | none => s
    | some previousOwner =>
      let buyerAddress := event.taker
      let sellerAddress := previousOwner
      let buyerAccount := getOrCreateAccount s buyerAddress
      let sellerAccount := getOrCreateAccount s sellerAddress
      let salePrice := event.price
      let transactionId := getGlobalId event.txHash event.logIndex
      let (transaction, s) := loadOrCreateTransaction s transactionId buyerAccount.id "TRADE"
      let transaction := { transaction with
        buyer := buyerAddress, seller := sellerAddress, nftSalePrice := salePrice
        blockNumber := event.blockNumber, blockTimestamp := event.blockTimestamp }
      let s := saveLTransaction s transaction
      let (_, s) := updateTransactionStatistics s transaction salePrice
      let buyerAccount := updateAccountStatistics buyerAccount false true true
      let sellerAccount := updateAccountStatistics sellerAccount false false true
      let (_, s) := updateAccountTypes s buyerAccount
      let (_, s) := updateAccountTypes s sellerAccount
      s

end Utils

namespace Utils.Logic

/-- `utils/logic.ts#handleTransfer`: classify MINT/TRADE by the zero-address
test, create or load the transaction keyed by hash-tokenId, increment the
recipient mint count on MINT, reclassify both accounts (which saves them),
and save the transaction. -/
def handleTransfer (s : Store) (event : TransferEvent) : Store :=
  let fromAccount := getOrCreateAccount s event.fromAddr
  let toAccount := getOrCreateAccount s event.toAddr
  let tokenId := intToHex event.tokenId
  let transactionId := bytesToHex event.txHash ++ "-" ++ tokenId
  let transactionType := if event.fromAddr = ZERO_ADDRESS then "MINT" else "TRADE"
  let (transaction, s) := loadOrCreateTransaction s transactionId toAccount.id transactionType
  let transaction := { transaction with
    fromAddr := event.fromAddr, toAddr := event.toAddr, tokenId := event.tokenId
    blockNumber := event.blockNumber, blockTimestamp := event.blockTimestamp }
  let toAccount :=
    if transactionType = "MINT" then
      { toAccount with mintCount := toAccount.mintCount + BIGINT_ONE }
    else toAccount
  let (_, s) := updateAccountTypes s fromAccount
  let (_, s) := updateAccountTypes s toAccount
  let s := saveLTransaction s transaction
  s

/-- `utils/logic.ts#handleOrdersMatched`: create or load the trade transaction
keyed by hash-tokenId, set its sale fields, increment the buyer buy count
and amount bought and the seller sale count and amount sold, run the
transaction statistics, and reclassify both accounts (which saves them).  The
maker/taker conditional in the source assigns the same values in both
branches and is omitted. -/
def handleOrdersMatched (s : Store) (event : OrdersMatchedEvent) : Store :=
  let buyerAddress := event.taker
  let sellerAddress := event.maker
  let buyerAccount := getOrCreateAccount s buyerAddress
  let sellerAccount := getOrCreateAccount s sellerAddress
  let tokenId := intToHex event.tokenId
  let salePrice := event.price
  let transactionId := bytesToHex event.txHash ++ "-" ++ tokenId
  let (transaction, s) := loadOrCreateTransaction s transactionId buyerAccount.id "TRADE"
  let transaction := { transaction with
    buyer := buyerAddress, seller := sellerAddress, tokenId := event.tokenId
    nftSalePrice := salePrice
    blockNumber := event.blockNumber, blockTimestamp := event.blockTimestamp }
  let buyerAccount := { buyerAccount with
    buyCount := buyerAccount.buyCount + BIGINT_ONE
    totalAmountBought := buyerAccount.totalAmountBought + salePrice }
  let sellerAccount := { sellerAccount with
    saleCount := sellerAccount.saleCount + BIGINT_ONE
    totalAmountSold := sellerAccount.totalAmountSold + salePrice }
  let (_, s) := updateTransactionStatistics s transaction salePrice
  let (_, s) := updateAccountTypes s buyerAccount
  let (_, s) := updateAccountTypes s sellerAccount
  s

end Utils.Logic

namespace Utils.Mappings

/-- `src/mappings/transactions.ts#handleTransfer` (the draft built on the
utils helpers).  Two readings fixed by the source text: `Array.isArray` of a
`BigInt` is false, so `tokenTracker` is always the single-element array
`[event.params.tokenId]` and the loop body runs exactly once; and
`let isMint = ZERO_ADDRESS;` binds the address constant itself, a non-null
reference that is truthy as a condition, so every transfer takes the mint
branches. -/
def handleTransfer (s : Store) (event : TransferEvent) : Store :=
  let fromAccount := getOrCreateAccount s event.fromAddr
  let toAccount := getOrCreateAccount s event.toAddr
  let isMint := true
  let tokenId := intToString event.tokenId
  let covenToken := getOrCreateCovenToken s event.txHash event.logIndex
      event.blockNumber event.blockHash event.blockTimestamp tokenId
  let covenToken :=
    if isMint then
      { covenToken with owner := toAccount.id, timestamp := event.blockTimestamp
                        tokenId := event.tokenId }
    else
      { covenToken with owner := toAccount.id }
  let s := saveCovenToken s covenToken
  let (fromAccount, toAccount) :=
    if isMint then
      (fromAccount,
       { toAccount with mintCount := toAccount.mintCount + toAccount.mintCount })
    else
      ({ fromAccount with activityCount := fromAccount.activityCount + BIGINT_ONE },
       { toAccount with activityCount := toAccount.activityCount + BIGINT_ONE })
  let s := saveAccount s fromAccount
  let s := saveAccount s toAccount
  let s := analyzeHistoricalData s fromAccount.id
  let s := analyzeHistoricalData s toAccount.id
  let transactionType := if isMint then "MINT" else "TRANSFER"
  let transaction := getOrCreateTransaction s event.txHash event.logIndex
      event.blockNumber event.blockTimestamp transactionType
  let transaction := { transaction with
    totalNFTsSold := transaction.totalNFTsSold + 1 }
  let s := saveTTransaction s transaction
  s

end Utils.Mappings

/-!
## The second `utils/tokenHelper.ts` draft (transactionCount-based account)
-/

namespace TokenH

/-- The `Account` entity as `utils/tokenHelper.ts#loadOrCreateAccount` /
`createOrUpdateAccount` initialise it in this draft. -/
structure Account where
  id : String
  transactionCount : Int
  mintCount : Int
  buyCount : Int
  saleCount : Int
  totalAmountBought : Int
  totalAmountSold : Int
  totalAmountBalance : Int
  isOG : Bool
  isCollector : Bool
  isHunter : Bool
  isFarmer : Bool
  isTrader : Bool
deriving DecidableEq

/-- The `TransactionType` enum of this draft (TRADE, MINT, TRANSFER). -/
inductive TransactionType where
  | TRADE
  | MINT
  | TRANSFER
deriving DecidableEq

/-- The account table, keyed by account id. -/
abbrev AccountStore := List (String × Account)

/-- `utils/tokenHelper.ts#updateTransactionCounts`: bump `mintCount`,
`buyCount`/`saleCount` or `transactionCount` by the type branch, always bump
`transactionCount` once more at the end.  The trailing `account.save` in the
source has no call parentheses — it is a bare property reference, so nothing
is written to the store; the function therefore returns the store unchanged. -/
def updateTransactionCounts (s : AccountStore) (account : Account)
    (transactionType : String) (isBuyer : Bool := false) : Account × AccountStore :=
  let account :=
    if transactionType = "MINT" then
      { account with mintCount := account.mintCount + BIGINT_ONE }
    else if transactionType = "TRADE" then
      (if isBuyer then { account with buyCount := account.buyCount + BIGINT_ONE }
       else { account with saleCount := account.saleCount + BIGINT_ONE })
    else if transactionType = "Transfer" then
      { account with transactionCount := account.transactionCount + BIGINT_ONE }
    else account
  let account := { account with transactionCount := account.transactionCount + BIGINT_ONE }
  (account, s)

/-- `utils/tokenHelper.ts#updateAccountHistory`: bump the overall transaction
count, then apply the per-type mutation.  The MINT branch is
`account.mintCount.plus(account.mintCount)` in the source — it adds the mint
count to itself. -/
def updateAccountHistory (account : Account) (transactionType : TransactionType)
    (price : Int) (isSale : Bool := false) : Account :=
  let account := { account with transactionCount := account.transactionCount + BIGINT_ONE }
  if transactionType = TransactionType.MINT then
    { account with mintCount := account.mintCount + account.mintCount }
  else if transactionType = TransactionType.TRADE ∧ isSale then
    { account with
      saleCount := account.saleCount + BIGINT_ONE
      totalAmountSold := account.totalAmountSold + price
      totalAmountBalance := account.totalAmountBalance - price }
  else if transactionType = TransactionType.TRADE ∧ ¬isSale then
    { account with
      buyCount := account.buyCount + BIGINT_ONE
      totalAmountBought := account.totalAmountBought + price
      totalAmountBalance := account.totalAmountBalance + price }
  else account

/-- `utils/tokenHelper.ts#determineAccountType` (lines 418-487): an if/else
chain over the three counters; each branch assigns all five flags, the final
else resets them all to false. -/
def determineAccountType (account : Account) : Account :=
  if BIGINT_ONE ≤ account.mintCount ∧ account.buyCount = BIGINT_ZERO
      ∧ account.saleCount = BIGINT_ZERO then
    { account with isOG := true, isCollector := false, isHunter := false
                   isFarmer := false, isTrader := false }
  else if BIGINT_ONE ≤ account.mintCount ∧ BIGINT_ONE ≤ account.buyCount
      ∧ account.saleCount = BIGINT_ZERO then
    { account with isOG := false, isCollector := true, isHunter := false
                   isFarmer := false, isTrader := false }
  else if BIGINT_ONE ≤ account.mintCount ∧ BIGINT_ONE ≤ account.saleCount
      ∧ account.buyCount = BIGINT_ZERO then
    { account with isOG := false, isCollector := false, isHunter := true
                   isFarmer := false, isTrader := false }
  else if BIGINT_ONE ≤ account.mintCount ∧ BIGINT_ONE ≤ account.saleCount
      ∧ BIGINT_ONE ≤ account.buyCount then
    { account with isOG := false, isCollector := false, isHunter := false
                   isFarmer := true, isTrader := false }
  else if account.mintCount = BIGINT_ZERO ∧ BIGINT_ONE ≤ account.saleCount
      ∧ BIGINT_ONE ≤ account.buyCount then
    { account with isOG := false, isCollector := false, isHunter := false
                   isFarmer := false, isTrader := true }
  else
    { account with isOG := false, isCollector := false, isHunter := false
                   isFarmer := false, isTrader := false }

end TokenH

/-!
## The `src/helpers/*` family and the mappings built on it
(`helpers/accountHelper.ts`, `helpers/transactionHelper.ts`, `helpers/utils.ts`
drafts, `mappings/covenToken.ts`, `mappings/transactions.ts#handleOpenSea`).
-/

namespace Helpers

/-- The `Account` entity as `helpers/accountHelper.ts#loadOrCreateAccount`
initialises it (this draft matches the generated schema). -/
structure Account where
  id : String
  transactionCount : Int
  mintCount : Int
  buyCount : Int
  saleCount : Int
  totalAmountBought : Int
  totalAmountSold : Int
  totalAmountBalance : Int
  isOG : Bool
  isCollector : Bool
  isHunter : Bool
  isFarmer : Bool
  isTrader : Bool
  logIndex : Int
  txHash : Bytes
  blockNumber : Int
  blockTimestamp : Int
deriving DecidableEq

/-- The `Transaction` entity as `helpers/transactionHelper.ts#createOrUpdateTransaction`
populates it (`averageSalePrice` is a `BigDecimal`, modelled as `Rat`). -/
structure Transaction where
  id : String
  account : String
  referenceId : String
  buyer : Bytes
  seller : Bytes
  nftSalePrice : Int
  totalNFTsSold : Int
  totalSalesVolume : Int
  averageSalePrice : Rat
  totalSalesCount : Int
  highestSalePrice : Int
  lowestSalePrice : Int
  logIndex : Int
  txHash : Bytes
  blockNumber : Int
  blockTimestamp : Int
deriving DecidableEq

/-- The `CovenToken` entity as the `helpers/utils.ts` draft
(`createOrUpdateCovenToken`, src/unnamed/part_012) initialises it; its
`tokenId` field is assigned the hex string `tokenId.toHex()`.  `owner` is not
assigned at creation and is modelled with an empty default. -/
structure CovenToken where
  id : String
  tokenId : String
  tokenMintCount : Int
  logIndex : Int
  txHash : Bytes
  blockNumber : Int
  blockTimestamp : Int
  owner : Bytes
deriving DecidableEq

/-- The `AccountHistory` entity as `helpers/accountHelper.ts#createAccountHistory`
populates it.  The source stores `Bytes.fromHexString(account.id)` as the
owner; the model keeps the id string itself (the decoding is a bijection on
the well-formed ids the code produces). -/
structure AccountHistory where
  id : String
  history : String
  owner : String
  mintCount : Int
  buyCount : Int
  saleCount : Int
  logIndex : Int
  txHash : Bytes
  blockNumber : Int
  blockTimestamp : Int
deriving DecidableEq

/-- The store seen by the `helpers` family. -/
structure Store where
  accounts : List (String × Account)
  transactions : List (String × Transaction)
  covenTokens : List (String × CovenToken)
  histories : List (String × AccountHistory)
deriving DecidableEq

def emptyStore : Store :=
  { accounts := [], transactions := [], covenTokens := [], histories := [] }

def saveAccount (s : Store) (a : Account) : Store :=
  { s with accounts := upsert a.id a s.accounts }

def saveTransaction (s : Store) (t : Transaction) : Store :=
  { s with transactions := upsert t.id t s.transactions }

def saveCovenToken (s : Store) (t : CovenToken) : Store :=
  { s with covenTokens := upsert t.id t s.covenTokens }

def saveAccountHistory (s : Store) (h : AccountHistory) : Store :=
  { s with histories := upsert h.id h s.histories }

/-- `helpers/utils.ts#getTransactionId` / `getGlobalId`: hash, hyphen, log index. -/
def getTransactionId (txHash : Bytes) (logIndex : Int) : String :=
  bytesToHex txHash ++ "-" ++ intToString logIndex

/-- `topics.length > 0 && topics[0].equals(sig)`, the guard both receipt
scanners use. -/
def topicZeroIs (l : EthLog) (sig : Bytes) : Bool :=
  match l.topics with
  | [] => false
  | t0 :: _ => decide (t0 = sig)

/-- `helpers/utils.ts#checkForOrdersMatched` (src/unnamed/part_012 lines
700-724): when the event has no receipt, `log.warning` and return false;
otherwise scan ALL logs of the receipt, from index 0, for a log whose topic0
equals `ORDERS_MATCHED_EVENT_SIG`.  The result pair is (found, warned):
`warned` records whether the missing-receipt diagnostic was logged. -/
def checkForOrdersMatched (receipt : Option TransactionReceipt) : Bool × Bool :=
  match receipt with
  | none => (false, true)
  | some receipt =>
    (receipt.logs.any (fun currLog => topicZeroIs currLog ORDERS_MATCHED_EVENT_SIG), false)

/-- The second loop of `extractTokenIdFromLogs`: walk every log except the one
at `ordersMatchedIndex`, and return the decoded `uint256` payload of the first
`Transfer`-signature log whose data decodes.  (`if (tokenId)` on the decoded
non-null `BigInt` reference is always truthy.) -/
def findTransferTokenId (ordersMatchedIndex : Nat) : Nat → List EthLog → Option Int
  | _, [] => none
  | i, currLog :: rest =>
    if i = ordersMatchedIndex then findTransferTokenId ordersMatchedIndex (i + 1) rest
    else if topicZeroIs currLog TRANSFER_EVENT_SIG then
      match currLog.data with
      | some tokenId => some tokenId
      | none => findTransferTokenId ordersMatchedIndex (i + 1) rest
    else findTransferTokenId ordersMatchedIndex (i + 1) rest

/-- `helpers/utils.ts#extractTokenIdFromLogs` (src/unnamed/part_012 lines
620-693): locate the first `OrdersMatched` log, then recover the token id
from a sibling `Transfer` log; `null` when the receipt is missing, when no
`OrdersMatched` log exists, or when no decodable `Transfer` log is found. -/
def extractTokenIdFromLogs (receipt : Option TransactionReceipt) : Option Int :=
  match receipt with
  | none => none
  | some receipt =>
    match receipt.logs.findIdx? (fun l => topicZeroIs l ORDERS_MATCHED_EVENT_SIG) with
    | none => none
    | some ordersMatchedIndex => findTransferTokenId ordersMatchedIndex 0 receipt.logs

/-- `helpers/utils.ts#calculateHighestSalePrice` (two-argument draft,
src/unnamed/part_012 lines 62-75). -/
def calculateHighestSalePrice (currentPrice : Int) (previousHighestPrice : Option Int) : Int :=
  match previousHighestPrice with
  | none => currentPrice
  | some prev => if prev < currentPrice then currentPrice else prev

/-- `helpers/utils.ts#calculateLowestSalePrice` (two-argument draft). -/
def calculateLowestSalePrice (currentPrice : Int) (previousLowestPrice : Option Int) : Int :=
  match previousLowestPrice with
  | none => currentPrice
  | some prev => if currentPrice < prev then currentPrice else prev

/-- `helpers/utils.ts#calculateAverageSalePrice`: zero when the count is zero,
otherwise the exact `BigDecimal` quotient. -/
def calculateAverageSalePrice (totalSalesVolume : Int) (totalSalesCount : Int) : Rat :=
  if totalSalesCount = BIGINT_ZERO then 0
  else (totalSalesVolume : Rat) / (totalSalesCount : Rat)

/-- `helpers/utils.ts#createOrUpdateCovenToken(tokenId)` (src/unnamed/part_012
lines 108-140): load by `tokenId.toHex()`, else create, then `save()`. -/
def createOrUpdateCovenToken (s : Store) (tokenId : Int) : CovenToken × Store :=
  let id := intToHex tokenId
  let token :=
    match List.lookup id s.covenTokens with
    | some token => token
    | none =>
      { id := id, tokenId := intToHex tokenId, tokenMintCount := BIGINT_ZERO
        logIndex := BIGINT_ZERO, txHash := Bytes.emptyBytes
        blockNumber := 0, blockTimestamp := 0, owner := Bytes.emptyBytes }
  (token, saveCovenToken s token)

/-- `helpers/accountHelper.ts#loadOrCreateAccount`: load by address hex, else
a fresh zeroed account; the new account is returned without being saved. -/
def loadOrCreateAccount (s : Store) (accountId : Bytes) : Account :=
  match List.lookup (bytesToHex accountId) s.accounts with
  | some account => account
  | none =>
    { id := bytesToHex accountId
      transactionCount := BIGINT_ZERO, mintCount := BIGINT_ZERO
      buyCount := BIGINT_ZERO, saleCount := BIGINT_ZERO
      totalAmountBought := BIGINT_ZERO, totalAmountSold := BIGINT_ZERO
      totalAmountBalance := BIGINT_ZERO
      isOG := false, isCollector := false, isHunter := false
      isFarmer := false, isTrader := false
      logIndex := BIGINT_ZERO, txHash := Bytes.emptyBytes
      blockNumber := BIGINT_ZERO, blockTimestamp := BIGINT_ZERO }

/-- `helpers/accountHelper.ts#createAccountHistory`: snapshot the account
under the id `account.id + "-" + transactionCount`, then `save()`. -/
def createAccountHistory (s : Store) (account : Account) : Store :=
  let historyId := account.id ++ "-" ++ intToString account.transactionCount
  let accountHistory : AccountHistory :=
    { id := historyId, history := account.id, owner := account.id
      mintCount := account.mintCount, buyCount := account.buyCount
      saleCount := account.saleCount
      logIndex := account.logIndex, txHash := account.txHash
      blockNumber := account.blockNumber, blockTimestamp := account.blockTimestamp }
  saveAccountHistory s accountHistory

/-- `helpers/accountHelper.ts#updateTransactionCounts` (same code as the
`utils/tokenHelper.ts` copy): per-type bump plus the unconditional
`transactionCount` bump.  The trailing `account.save` has no call
parentheses, so the store is returned unchanged. -/
def updateTransactionCounts (s : Store) (account : Account)
    (transactionType : String) (isBuyer : Bool := false) : Account × Store :=
  let account :=
    if transactionType = "MINT" then
      { account with mintCount := account.mintCount + BIGINT_ONE }
    else if transactionType = "TRADE" then
      (if isBuyer then { account with buyCount := account.buyCount + BIGINT_ONE }
       else { account with saleCount := account.saleCount + BIGINT_ONE })
    else if transactionType = "Transfer" then
      { account with transactionCount := account.transactionCount + BIGINT_ONE }
    else account
  let account := { account with transactionCount := account.transactionCount + BIGINT_ONE }
  (account, s)

/-- `helpers/accountHelper.ts#updateAccountType`: an if/else chain that sets
(only) the matched flag to true; no branch clears the other flags and there
is no final else. -/
def updateAccountType (account : Account) : Account :=
  if BIGINT_ONE ≤ account.mintCount ∧ account.buyCount = BIGINT_ZERO
      ∧ account.saleCount = BIGINT_ZERO then
    { account with isOG := true }
  else if BIGINT_ONE ≤ account.mintCount ∧ BIGINT_ONE ≤ account.buyCount
      ∧ account.saleCount = BIGINT_ZERO then
    { account with isCollector := true }
  else if BIGINT_ONE ≤ account.mintCount ∧ BIGINT_ONE ≤ account.saleCount
      ∧ account.buyCount = BIGINT_ZERO then
    { account with isHunter := true }
  else if BIGINT_ONE ≤ account.mintCount ∧ BIGINT_ONE ≤ account.saleCount
      ∧ BIGINT_ONE ≤ account.buyCount then
    { account with isFarmer := true }
  else if account.mintCount = BIGINT_ZERO ∧ BIGINT_ONE ≤ account.saleCount
      ∧ BIGINT_ONE ≤ account.buyCount then
    { account with isTrader := true }
  else account

/-- `helpers/accountHelper.ts#determineAccountType`: read the flags back as a
string label. -/
def determineAccountType (account : Account) : String :=
  if account.isOG then "OG"
  else if account.isCollector then "Collector"
  else if account.isHunter then "Hunter"
  else if account.isFarmer then "Farmer"
  else if account.isTrader then "Trader"
  else "Unknown"

/-- `helpers/transactionHelper.ts#createOrUpdateTransaction`: load the
transaction keyed by (hash, logIndex) or create it, then unconditionally
re-assign every field — provenance from the event, `account := id`, empty
`referenceId`/`buyer`/`seller`, and all sale and aggregate fields zero — and
`save()`. -/
def createOrUpdateTransaction (s : Store) (txHash : Bytes) (logIndex : Int)
    (blockNumber : Int) (blockTimestamp : Int) : Transaction × Store :=
  let id := getTransactionId txHash logIndex
  let transaction :=
    match List.lookup id s.transactions with
    | some transaction => transaction
    | none =>
      { id := id, account := "", referenceId := ""
        buyer := Bytes.emptyBytes, seller := Bytes.emptyBytes
        nftSalePrice := 0, totalNFTsSold := 0, totalSalesVolume := 0
        averageSalePrice := 0, totalSalesCount := 0
        highestSalePrice := 0, lowestSalePrice := 0
        logIndex := 0, txHash := Bytes.emptyBytes
        blockNumber := 0, blockTimestamp := 0 }
  let transaction := { transaction with
    txHash := txHash, logIndex := logIndex
    blockNumber := blockNumber, blockTimestamp := blockTimestamp
    account := transaction.id, referenceId := ""
    buyer := Bytes.emptyBytes, seller := Bytes.emptyBytes
    nftSalePrice := BIGINT_ZERO, totalNFTsSold := BIGINT_ZERO
    totalSalesVolume := BIGINT_ZERO, averageSalePrice := 0
    totalSalesCount := BIGINT_ZERO
    highestSalePrice := BIGINT_ZERO, lowestSalePrice := BIGINT_ZERO }
  (transaction, saveTransaction s transaction)

/-- Step 5/6 of `mappings/covenToken.ts#handleTransfer`:
`isMint ? "MINT" : checkForOrdersMatched(event) ? "TRADE" : "TRANSFER"`. -/
def transferTransactionType (event : TransferEvent) : String :=
  if event.fromAddr = ZERO_ADDRESS then "MINT"
  else if (checkForOrdersMatched event.receipt).1 then "TRADE"
  else "TRANSFER"

/-- `mappings/covenToken.ts#handleTransfer`: update the provenance of both accounts,
update the token, classify via `transferTransactionType`, bump the matching
transaction counts, reclassify, and record history for both accounts.  (The
handler never calls `account.save()`; only the history entities and the token
reach the store.) -/
def handleTransfer (s : Store) (event : TransferEvent) : Store :=
  let fromAccount := loadOrCreateAccount s event.fromAddr
  let toAccount := loadOrCreateAccount s event.toAddr
  let fromAccount := { fromAccount with
    logIndex := event.logIndex, txHash := event.txHash
    blockNumber := event.blockNumber, blockTimestamp := event.blockTimestamp }
  let toAccount := { toAccount with
    logIndex := event.logIndex, txHash := event.txHash
    blockNumber := event.blockNumber, blockTimestamp := event.blockTimestamp }
  let (token, s) := createOrUpdateCovenToken s event.tokenId
  let token := { token with
    logIndex := event.logIndex, txHash := event.txHash
    blockNumber := event.blockNumber, blockTimestamp := event.blockTimestamp
    owner := event.toAddr }
  let s := saveCovenToken s token
  let transactionType := transferTransactionType event
  let (fromAccount, toAccount, s) :=
    if transactionType = "MINT" then
      let (toAccount, s) := updateTransactionCounts s toAccount "MINT"
      (fromAccount, toAccount, s)
    else if transactionType = "TRADE" then
      let (fromAccount, s) := updateTransactionCounts s fromAccount "TRADE"
      let (toAccount, s) := updateTransactionCounts s toAccount "TRADE"
      (fromAccount, toAccount, s)
    else
      let (fromAccount, s) := updateTransactionCounts s fromAccount "TRANSFER"
      let (toAccount, s) := updateTransactionCounts s toAccount "TRANSFER"
      (fromAccount, toAccount, s)
  let fromAccount := updateAccountType fromAccount
  let toAccount := updateAccountType toAccount
  let s := createAccountHistory s fromAccount
  let s := createAccountHistory s toAccount
  s

/-- `mappings/transactions.ts#handleOpenSea`: create/overwrite the transaction
record, try to recover the token id from the receipt (updating the token and
`referenceId` only when it is found), then fill the sale statistics, bump the
trade counts of the accounts, reclassify, record history, and save both accounts. -/
def handleOpenSea (s : Store) (event : OrdersMatchedEvent) : Store :=
  let buyerAccount := loadOrCreateAccount s event.taker
  let sellerAccount := loadOrCreateAccount s event.maker
  let (transaction, s) := createOrUpdateTransaction s event.txHash event.logIndex
      event.blockNumber event.blockTimestamp
  let tokenIdfromReceipt := extractTokenIdFromLogs event.receipt
  let (transaction, s) :=
    match tokenIdfromReceipt with
    | some tokenId =>
      let (covenToken, s) := createOrUpdateCovenToken s tokenId
      let covenToken := { covenToken with owner := event.taker }
      let s := saveCovenToken s covenToken
      let transaction := { transaction with referenceId := intToHex tokenId }
      let s := saveTransaction s transaction
      (transaction, s)
    | none => (transaction, s)
  let salePrice := event.price
  let previousHighestSalePrice := transaction.highestSalePrice
  let previousLowestSalePrice := transaction.lowestSalePrice
  let totalSalesVolume := salePrice * transaction.totalNFTsSold
  let transaction := { transaction with
    nftSalePrice := salePrice
    totalNFTsSold := BIGINT_ONE
    totalSalesVolume := totalSalesVolume
    highestSalePrice := calculateHighestSalePrice salePrice (some previousHighestSalePrice)
    lowestSalePrice := calculateLowestSalePrice salePrice (some previousLowestSalePrice)
    averageSalePrice := calculateAverageSalePrice totalSalesVolume salePrice
    logIndex := event.logIndex, txHash := event.txHash
    blockNumber := event.blockNumber, blockTimestamp := event.blockTimestamp }
  let s := saveTransaction s transaction
  let buyerAccount := { buyerAccount with
    logIndex := event.logIndex, txHash := event.txHash
    blockNumber := event.blockNumber, blockTimestamp := event.blockTimestamp }
  let sellerAccount := { sellerAccount with
    logIndex := event.logIndex, txHash := event.txHash
    blockNumber := event.blockNumber, blockTimestamp := event.blockTimestamp }
  let (buyerAccount, s) := updateTransactionCounts s buyerAccount "TRADE"
  let (sellerAccount, s) := updateTransactionCounts s sellerAccount "TRADE"
  let buyerAccount := updateAccountType buyerAccount
  let sellerAccount := updateAccountType sellerAccount
  let s := createAccountHistory s buyerAccount
  let s := createAccountHistory s sellerAccount
  let s := saveAccount s buyerAccount
  let s := saveAccount s sellerAccount
  s

end Helpers

/-!
## Modelled from the spec (for refinement comparison only)
-/

/-- Modelled from the spec: the §4.4 forward scan — "starting at the current
log position, scan forward through all subsequent logs for the first one
whose topic0 equals the marketplace signature".  Used only to compare the
source scanner against the spec wording. -/
def forwardScanFindsOrdersMatched (event : TransferEvent) : Bool :=
  match event.receipt with
  | none => false
  | some receipt =>
    match receipt.logs.findIdx? (fun l => decide (l.logIndex = event.logIndex)) with
    | none => false
    | some i =>
      (receipt.logs.drop i).any (fun l => Helpers.topicZeroIs l ORDERS_MATCHED_EVENT_SIG)

/-!
## Concrete inputs used by counterexamples and witnesses
-/

/-- A generic count of true booleans, used to state "exactly zero or one
flag is set". -/
def boolCount (l : List Bool) : Nat := (l.filter id).length

/-- An account that has minted once and neither bought nor sold
(counters (1, 0, 0)), in the utils account shape. -/
def ogUAccount : Utils.Account :=
  { id := "0x1", activityCount := 0, mintCount := 1, buyCount := 0, saleCount := 0
    totalAmountBought := 0, totalAmountSold := 0, totalAmountBalance := 0
    blockNumber := 0, blockTimestamp := 0
    isOG := false, isCollector := false, isHunter := false
    isFarmer := false, isTrader := false }

/-- An account with mint count 2, in the tokenHelper account shape. -/
def mintTwoAccount : TokenH.Account :=
  { id := "0x2", transactionCount := 0, mintCount := 2, buyCount := 0, saleCount := 0
    totalAmountBought := 0, totalAmountSold := 0, totalAmountBalance := 0
    isOG := false, isCollector := false, isHunter := false
    isFarmer := false, isTrader := false }

/-- A fresh transaction record (all aggregates zero), logic.ts shape. -/
def freshLTransaction : Utils.LTransaction :=
  { id := "t", account := "", type := "TRADE"
    fromAddr := Bytes.emptyBytes, toAddr := Bytes.emptyBytes
    tokenId := 0, buyer := Bytes.emptyBytes, seller := Bytes.emptyBytes
    nft := "", nftSalePrice := 0, totalSold := 0
    blockNumber := 0, blockTimestamp := 0
    totalSalesVolume := 0, averageSalePrice := 0, totalSalesCount := 0
    highestSalePrice := 0, lowestSalePrice := 0 }

/-!
## Claim C1 — classification exclusivity
-/

/-- Claim C1 counterexample: for the counter triple (1, 0, 0) — one mint,
no buy, no sale — `updateAccountTypes` sets both `isOG` and `isCollector`
to true, so two of the five flags are true simultaneously, refuting the
claim "exactly zero or one of the five flags is true". -/
theorem claim1_counterexample_OG_and_Collector :
    ((Utils.updateAccountTypes Utils.emptyStore ogUAccount).1.isOG = true)
    ∧ ((Utils.updateAccountTypes Utils.emptyStore ogUAccount).1.isCollector = true) := by
  decide

/-- Claim C1 (amended): after `determineAccountType` (utils/tokenHelper.ts)
exactly zero or one of the five flags is true.  After `updateAccountTypes`
(utils/accountHelper.ts) the four flags isOG, isHunter, isFarmer, isTrader
are pairwise exclusive and isCollector is exclusive with isHunter and
isFarmer, but isCollector also holds whenever isOG holds; hence at most two
of the five flags are true, and a true pair always contains isCollector. -/
theorem claim1_amended_classification :
    (∀ a : TokenH.Account,
      boolCount [(TokenH.determineAccountType a).isOG,
                 (TokenH.determineAccountType a).isCollector,
                 (TokenH.determineAccountType a).isHunter,
                 (TokenH.determineAccountType a).isFarmer,
                 (TokenH.determineAccountType a).isTrader] ≤ 1)
    ∧ (∀ (s : Utils.Store) (a : Utils.Account),
      boolCount [((Utils.updateAccountTypes s a).1).isOG,
                 ((Utils.updateAccountTypes s a).1).isHunter,
                 ((Utils.updateAccountTypes s a).1).isFarmer,
                 ((Utils.updateAccountTypes s a).1).isTrader] ≤ 1
      ∧ ¬(((Utils.updateAccountTypes s a).1).isCollector = true
            ∧ ((Utils.updateAccountTypes s a).1).isHunter = true)
      ∧ ¬(((Utils.updateAccountTypes s a).1).isCollector = true
            ∧ ((Utils.updateAccountTypes s a).1).isFarmer = true)
      ∧ (((Utils.updateAccountTypes s a).1).isOG = true
            → ((Utils.updateAccountTypes s a).1).isCollector = true)
      ∧ boolCount [((Utils.updateAccountTypes s a).1).isOG,
                   ((Utils.updateAccountTypes s a).1).isCollector,
                   ((Utils.updateAccountTypes s a).1).isHunter,
                   ((Utils.updateAccountTypes s a).1).isFarmer,
                   ((Utils.updateAccountTypes s a).1).isTrader] ≤ 2) := by
  constructor
  · intro a
    unfold TokenH.determineAccountType
    repeat' split
    all_goals simp [boolCount]
  · intro s a
    simp only [Utils.updateAccountTypes, boolCount, BIGINT_ZERO]
    by_cases hm : (0 : Int) < a.mintCount <;>
      by_cases hmz : a.mintCount = (0 : Int) <;>
        by_cases hb : (0 : Int) < a.buyCount <;>
          by_cases hbz : a.buyCount = (0 : Int) <;>
            by_cases hs : (0 : Int) < a.saleCount <;>
              by_cases hsz : a.saleCount = (0 : Int) <;>
                simp_all

/-- Claim C1 amended witness: the implication of the amended claim applied at
the concrete (1, 0, 0) account. -/
theorem claim1_amended_classification_witness :
    ((Utils.updateAccountTypes Utils.emptyStore ogUAccount).1).isCollector = true :=
  ((claim1_amended_classification.2 Utils.emptyStore ogUAccount).2.2.2.1 (by decide))

/-!
## Claim C8 — per-type ledger mutations (updateAccountHistory)
-/

/-- Claim C8: in `updateAccountHistory` the buy mutation (TRADE, not a sale)
increments `buyCount` by one and adds the price to `totalAmountBought` and to
`totalAmountBalance`; the sale mutation (TRADE, sale) increments `saleCount`
by one, adds the price to `totalAmountSold` and subtracts it from
`totalAmountBalance` (both also bump `transactionCount`).  The mint mutation,
however, does NOT increment `mintCount` by one: the source line is
`account.mintCount.plus(account.mintCount)`, which doubles the count — shown
universally and at the concrete account with `mintCount = 2`, where the claim
expects 3 but the code produces 4. -/
theorem claim8_ledger_mutations :
    (∀ (a : TokenH.Account) (p : Int),
      TokenH.updateAccountHistory a TokenH.TransactionType.TRADE p false
        = { a with transactionCount := a.transactionCount + 1
                   buyCount := a.buyCount + 1
                   totalAmountBought := a.totalAmountBought + p
                   totalAmountBalance := a.totalAmountBalance + p })
    ∧ (∀ (a : TokenH.Account) (p : Int),
      TokenH.updateAccountHistory a TokenH.TransactionType.TRADE p true
        = { a with transactionCount := a.transactionCount + 1
                   saleCount := a.saleCount + 1
                   totalAmountSold := a.totalAmountSold + p
                   totalAmountBalance := a.totalAmountBalance - p })
    ∧ (∀ (a : TokenH.Account) (p : Int),
      TokenH.updateAccountHistory a TokenH.TransactionType.MINT p false
        = { a with transactionCount := a.transactionCount + 1
                   mintCount := a.mintCount + a.mintCount })
    ∧ (TokenH.updateAccountHistory mintTwoAccount TokenH.TransactionType.MINT 5 false).mintCount = 4 := by
  refine ⟨fun a p => ?_, fun a p => ?_, fun a p => ?_, by decide⟩
  · simp [TokenH.updateAccountHistory, BIGINT_ONE]
  · simp [TokenH.updateAccountHistory, BIGINT_ONE]
  · simp [TokenH.updateAccountHistory, BIGINT_ONE]

/-!
## Claim C9 — createOrUpdateTransaction discards accumulated state
-/

/-- Claim C9: for every prior store, after `createOrUpdateTransaction` the
transaction stored under (txHash, logIndex) has `nftSalePrice`,
`totalNFTsSold`, `totalSalesVolume`, `totalSalesCount`, `highestSalePrice`
and `lowestSalePrice` all zero and empty `buyer`/`seller` — the call
re-zeroes these fields even when the record already existed. -/
theorem claim9_createOrUpdateTransaction_resets :
    ∀ (s : Helpers.Store) (txHash : Bytes) (logIndex blockNumber blockTimestamp : Int),
      (∀ k t, List.lookup k s.transactions = some t → t.id = k) →
      List.lookup (Helpers.getTransactionId txHash logIndex)
          ((Helpers.createOrUpdateTransaction s txHash logIndex blockNumber blockTimestamp).2).transactions
        = some (Helpers.createOrUpdateTransaction s txHash logIndex blockNumber blockTimestamp).1
      ∧ (Helpers.createOrUpdateTransaction s txHash logIndex blockNumber blockTimestamp).1.nftSalePrice = 0
      ∧ (Helpers.createOrUpdateTransaction s txHash logIndex blockNumber blockTimestamp).1.totalNFTsSold = 0
      ∧ (Helpers.createOrUpdateTransaction s txHash logIndex blockNumber blockTimestamp).1.totalSalesVolume = 0
      ∧ (Helpers.createOrUpdateTransaction s txHash logIndex blockNumber blockTimestamp).1.totalSalesCount = 0
      ∧ (Helpers.createOrUpdateTransaction s txHash logIndex blockNumber blockTimestamp).1.highestSalePrice = 0
      ∧ (Helpers.createOrUpdateTransaction s txHash logIndex blockNumber blockTimestamp).1.lowestSalePrice = 0
      ∧ (Helpers.createOrUpdateTransaction s txHash logIndex blockNumber blockTimestamp).1.buyer = Bytes.emptyBytes
      ∧ (Helpers.createOrUpdateTransaction s txHash logIndex blockNumber blockTimestamp).1.seller = Bytes.emptyBytes := by
  intro s txHash logIndex blockNumber blockTimestamp hs
  cases hlk : List.lookup (Helpers.getTransactionId txHash logIndex) s.transactions with
  | none =>
    simp [Helpers.createOrUpdateTransaction, hlk, Helpers.saveTransaction,
      lookup_upsert_self, BIGINT_ZERO, Bytes.emptyBytes]
  | some t =>
    have hid := hs _ _ hlk
    simp [Helpers.createOrUpdateTransaction, hlk, Helpers.saveTransaction, hid,
      lookup_upsert_self, BIGINT_ZERO, Bytes.emptyBytes]

/-!
## Claim C10 — updateTransactionCounts deltas and missing save
-/

/-- Claim C10: `updateTransactionCounts` increases `transactionCount` by
exactly 2 for type "Transfer" (the type branch and the unconditional bump
both fire) and by exactly 1 for "MINT" and "TRADE"; and it never writes the
account to the store, because the trailing `account.save` is a bare property
reference, not a call — the returned store is the input store. -/
theorem claim10_updateTransactionCounts :
    ∀ (s : TokenH.AccountStore) (a : TokenH.Account) (isBuyer : Bool),
      (TokenH.updateTransactionCounts s a "Transfer" isBuyer).1.transactionCount
          = a.transactionCount + 2
      ∧ (TokenH.updateTransactionCounts s a "Transfer" isBuyer).2 = s
      ∧ (TokenH.updateTransactionCounts s a "MINT" isBuyer).1.transactionCount
          = a.transactionCount + 1
      ∧ (TokenH.updateTransactionCounts s a "MINT" isBuyer).2 = s
      ∧ (TokenH.updateTransactionCounts s a "TRADE" isBuyer).1.transactionCount
          = a.transactionCount + 1
      ∧ (TokenH.updateTransactionCounts s a "TRADE" isBuyer).2 = s := by
  intro s a isBuyer
  cases isBuyer <;> simp [TokenH.updateTransactionCounts, BIGINT_ONE] <;> omega

/-- Claim C9 witness: the theorem applied to the empty store (where the
well-keyed hypothesis is vacuous) at a concrete event. -/
theorem claim9_witness :
    List.lookup (Helpers.getTransactionId [9] 2)
        ((Helpers.createOrUpdateTransaction Helpers.emptyStore [9] 2 1 1).2).transactions
      = some (Helpers.createOrUpdateTransaction Helpers.emptyStore [9] 2 1 1).1
    ∧ (Helpers.createOrUpdateTransaction Helpers.emptyStore [9] 2 1 1).1.nftSalePrice = 0 :=
  ⟨(claim9_createOrUpdateTransaction_resets Helpers.emptyStore [9] 2 1 1
      (by intro k t h; simp [Helpers.emptyStore, List.lookup] at h)).1,
   (claim9_createOrUpdateTransaction_resets Helpers.emptyStore [9] 2 1 1
      (by intro k t h; simp [Helpers.emptyStore, List.lookup] at h)).2.1⟩

/-!
## Claim C3 — transaction aggregate arithmetic
-/

/-- The conditional update `if a < b then b else a` used by the aggregators
computes the maximum. -/
theorem int_max_eq_ite (a b : Int) : max a b = if a < b then b else a := by
  rcases le_or_lt b a with h | h
  · rw [if_neg (not_lt.mpr h), max_eq_left h]
  · rw [if_pos h, max_eq_right h.le]

/-- Claim C3: each application of the aggregator adds the price to
`totalSalesVolume`, increments `totalSalesCount`, sets `highestSalePrice` to
the maximum of the stored value and the price, sets `lowestSalePrice` to the
price when the stored lowest is zero or the price is smaller, and sets
`averageSalePrice` to the (integer) quotient of volume by count — stated for
both `updateTransactionStatistics` (utils/accountHelper.ts) and
`updateTransactionAggregates` (utils/transactionHelper.ts), each under the
reachable-state hypothesis that the stored count is non-negative; and for the
price sequence [10, 30, 20] on a fresh record the results are volume 60,
count 3, highest 30, lowest 10, average 20. -/
theorem claim3_aggregate_arithmetic :
    (∀ (s : Utils.Store) (t : Utils.LTransaction) (p : Int),
      0 ≤ t.totalSalesCount →
      (Utils.updateTransactionStatistics s t p).1
        = { t with totalSalesVolume := t.totalSalesVolume + p
                   totalSalesCount := t.totalSalesCount + 1
                   highestSalePrice := max t.highestSalePrice p
                   lowestSalePrice :=
                     if p < t.lowestSalePrice ∨ t.lowestSalePrice = 0 then p
                     else t.lowestSalePrice
                   averageSalePrice :=
                     Int.tdiv (t.totalSalesVolume + p) (t.totalSalesCount + 1) })
    ∧ (∀ (s : Utils.Store) (t : Utils.TTransaction) (p : Int),
      0 ≤ t.totalSalesCount →
      (Utils.updateTransactionAggregates s t p).1
        = { t with transactionCount := t.transactionCount + 1
                   totalSalesVolume := t.totalSalesVolume + p
                   totalSalesCount := t.totalSalesCount + 1
                   highestSalePrice := max t.highestSalePrice p
                   lowestSalePrice :=
                     if t.lowestSalePrice = 0 ∨ p < t.lowestSalePrice then p
                     else t.lowestSalePrice
                   averageSalePrice :=
                     Int.tdiv (t.totalSalesVolume + p) (t.totalSalesCount + 1) })
    ∧ ((Utils.updateTransactionStatistics Utils.emptyStore
          ((Utils.updateTransactionStatistics Utils.emptyStore
            ((Utils.updateTransactionStatistics Utils.emptyStore
              freshLTransaction 10).1) 30).1) 20).1.totalSalesVolume = 60
      ∧ (Utils.updateTransactionStatistics Utils.emptyStore
          ((Utils.updateTransactionStatistics Utils.emptyStore
            ((Utils.updateTransactionStatistics Utils.emptyStore
              freshLTransaction 10).1) 30).1) 20).1.totalSalesCount = 3
      ∧ (Utils.updateTransactionStatistics Utils.emptyStore
          ((Utils.updateTransactionStatistics Utils.emptyStore
            ((Utils.updateTransactionStatistics Utils.emptyStore
              freshLTransaction 10).1) 30).1) 20).1.highestSalePrice = 30
      ∧ (Utils.updateTransactionStatistics Utils.emptyStore
          ((Utils.updateTransactionStatistics Utils.emptyStore
            ((Utils.updateTransactionStatistics Utils.emptyStore
              freshLTransaction 10).1) 30).1) 20).1.lowestSalePrice = 10
      ∧ (Utils.updateTransactionStatistics Utils.emptyStore
          ((Utils.updateTransactionStatistics Utils.emptyStore
            ((Utils.updateTransactionStatistics Utils.emptyStore
              freshLTransaction 10).1) 30).1) 20).1.averageSalePrice = 20) := by
  refine ⟨fun s t p h => ?_, fun s t p h => ?_, by decide⟩
  · have hc : (0 : Int) < t.totalSalesCount + 1 := by omega
    simp only [Utils.updateTransactionStatistics, BIGINT_ZERO, BIGINT_ONE, int_max_eq_ite]
    split_ifs <;> rfl
  · have hc : (0 : Int) < t.totalSalesCount + 1 := by omega
    simp only [Utils.updateTransactionAggregates, BIGINT_ZERO, BIGINT_ONE, int_max_eq_ite]
    split_ifs <;> rfl

/-- Claim C3 witness: the first equation of the claim applied at the fresh
record and price 7, its non-negativity hypothesis discharged concretely. -/
theorem claim3_witness :
    0 ≤ freshLTransaction.totalSalesCount
    ∧ (Utils.updateTransactionStatistics Utils.emptyStore freshLTransaction 7).1
        = { freshLTransaction with
              totalSalesVolume := freshLTransaction.totalSalesVolume + 7
              totalSalesCount := freshLTransaction.totalSalesCount + 1
              highestSalePrice := max freshLTransaction.highestSalePrice 7
              lowestSalePrice :=
                if 7 < freshLTransaction.lowestSalePrice ∨ freshLTransaction.lowestSalePrice = 0
                then 7 else freshLTransaction.lowestSalePrice
              averageSalePrice :=
                Int.tdiv (freshLTransaction.totalSalesVolume + 7)
                  (freshLTransaction.totalSalesCount + 1) } :=
  ⟨by decide,
   claim3_aggregate_arithmetic.1 Utils.emptyStore freshLTransaction 7 (by decide)⟩

/-!
## Claim C2 — replay idempotence
-/

/-- A concrete OrdersMatched event, delivered twice in the replay scenario. -/
def replayEvent : OrdersMatchedEvent :=
  { maker := [3], taker := [4], price := 100, tokenId := 7
    txHash := [9], logIndex := 2, blockNumber := 1, blockTimestamp := 1
    receipt := none }

/-- Claim C2 at the failing input: processing the identical OrdersMatched
event twice from the empty store leaves the buyer with `buyCount = 2` and the
seller with `saleCount = 2`, and the transaction with `totalSalesCount = 2`,
whereas after a single application they are 1 — the handler re-increments on
replay instead of being idempotent. -/
theorem claim2_replay_not_idempotent :
    ((List.lookup (bytesToHex [4])
        (Utils.Logic.handleOrdersMatched
          (Utils.Logic.handleOrdersMatched Utils.emptyStore replayEvent) replayEvent).accounts).map
        (fun a => a.buyCount) = some 2)
    ∧ ((List.lookup (bytesToHex [4])
        (Utils.Logic.handleOrdersMatched Utils.emptyStore replayEvent).accounts).map
        (fun a => a.buyCount) = some 1)
    ∧ ((List.lookup (bytesToHex [9] ++ "-" ++ intToHex 7)
        (Utils.Logic.handleOrdersMatched
          (Utils.Logic.handleOrdersMatched Utils.emptyStore replayEvent) replayEvent).transactions).map
        (fun t => t.totalSalesCount) = some 2)
    ∧ ((List.lookup (bytesToHex [9] ++ "-" ++ intToHex 7)
        (Utils.Logic.handleOrdersMatched Utils.emptyStore replayEvent).transactions).map
        (fun t => t.totalSalesCount) = some 1)
    ∧ ((List.lookup (bytesToHex [3])
        (Utils.Logic.handleOrdersMatched
          (Utils.Logic.handleOrdersMatched Utils.emptyStore replayEvent) replayEvent).accounts).map
        (fun a => a.saleCount) = some 2) := by
  decide

/-!
## Claim C4 — receipt scan direction
-/

/-- A log with the OrdersMatched signature sitting BEFORE the current log. -/
def tradeBeforeLog : EthLog :=
  { address := [5], topics := [ORDERS_MATCHED_EVENT_SIG], data := none, logIndex := 0 }

/-- The current Transfer log itself, at position 1. -/
def currentTransferLog : EthLog :=
  { address := [6], topics := [TRANSFER_EVENT_SIG], data := some 7, logIndex := 1 }

/-- A receipt whose only OrdersMatched log lies strictly before the current
log position. -/
def earlyMatchReceipt : TransactionReceipt :=
  { logs := [tradeBeforeLog, currentTransferLog] }

/-- A non-mint Transfer event at log index 1 carrying that receipt. -/
def earlyMatchEvent : TransferEvent :=
  { fromAddr := [1], toAddr := [2], tokenId := 7, txHash := [9], logIndex := 1
    blockNumber := 1, blockTimestamp := 1, blockHash := [8]
    receipt := some earlyMatchReceipt }

/-- Claim C4 counterexample: for a non-mint transfer at log position 1 whose
only OrdersMatched log is at position 0 — strictly before the current log —
the code still classifies TRADE, while the forward scan the claim describes
(`forwardScanFindsOrdersMatched`, modelled from the spec wording) finds
nothing at or after the current position. -/
theorem claim4_counterexample_backward_match :
    Helpers.transferTransactionType earlyMatchEvent = "TRADE"
    ∧ forwardScanFindsOrdersMatched earlyMatchEvent = false := by
  decide

/-- Claim C4 (amended): for every non-mint Transfer event carrying a receipt,
`checkForOrdersMatched` scans the ENTIRE log list of the receipt from index 0
— not only the logs at or after the current position — and the event is
classified TRADE exactly when SOME log anywhere in the receipt has topic0
equal to the OrdersMatched signature, TRANSFER otherwise; in particular a
matching log strictly before the current position does produce TRADE. -/
theorem claim4_amended_whole_receipt_scan :
    ∀ (ev : TransferEvent) (rc : TransactionReceipt),
      ev.fromAddr ≠ ZERO_ADDRESS → ev.receipt = some rc →
      (Helpers.transferTransactionType ev = "TRADE"
        ↔ rc.logs.any (fun l => Helpers.topicZeroIs l ORDERS_MATCHED_EVENT_SIG) = true)
      ∧ (Helpers.transferTransactionType ev = "TRADE"
          ∨ Helpers.transferTransactionType ev = "TRANSFER") := by
  intro ev rc hm hr
  simp only [Helpers.transferTransactionType, Helpers.checkForOrdersMatched, hr, if_neg hm]
  cases h : rc.logs.any (fun l => Helpers.topicZeroIs l ORDERS_MATCHED_EVENT_SIG) <;>
    simp [h]

/-- Claim C4 amended witness: the amended theorem applied at the concrete
event with the early (position 0) match. -/
theorem claim4_witness :
    Helpers.transferTransactionType earlyMatchEvent = "TRADE"
    ∨ Helpers.transferTransactionType earlyMatchEvent = "TRANSFER" :=
  (claim4_amended_whole_receipt_scan earlyMatchEvent earlyMatchReceipt (by decide) rfl).2

/-!
## Claim C7 — missing receipt degrades to TRANSFER
-/

/-- A non-mint Transfer event with no receipt attached. -/
def noReceiptEvent : TransferEvent :=
  { fromAddr := [1], toAddr := [2], tokenId := 7, txHash := [9], logIndex := 1
    blockNumber := 1, blockTimestamp := 1, blockHash := [8], receipt := none }

/-- Claim C7: for every non-mint Transfer event whose receipt is absent,
`checkForOrdersMatched` logs its missing-receipt diagnostic (the `warned`
component) and returns false, so the event is classified TRANSFER, never
TRADE; the handler is a total function of the event, so processing completes
without raising an error. -/
theorem claim7_missing_receipt_degrades :
    ∀ ev : TransferEvent, ev.receipt = none → ev.fromAddr ≠ ZERO_ADDRESS →
      Helpers.transferTransactionType ev = "TRANSFER"
      ∧ (Helpers.checkForOrdersMatched ev.receipt).2 = true
      ∧ (Helpers.checkForOrdersMatched ev.receipt).1 = false := by
  intro ev hr hm
  simp [Helpers.transferTransactionType, Helpers.checkForOrdersMatched, hr, hm]

/-- Claim C7 witness: the theorem applied at a concrete receipt-less event. -/
theorem claim7_witness :
    Helpers.transferTransactionType noReceiptEvent = "TRANSFER"
    ∧ (Helpers.checkForOrdersMatched noReceiptEvent.receipt).2 = true
    ∧ (Helpers.checkForOrdersMatched noReceiptEvent.receipt).1 = false :=
  claim7_missing_receipt_degrades noReceiptEvent rfl (by decide)

/-!
## Claim C5 — mint classification
-/

/-- In a store where every account is filed under its own id (the invariant
the storage collaborator maintains), the id of a got-or-created account is
the address hex. -/
theorem getOrCreateAccount_id (s : Utils.Store) (addr : Bytes)
    (hs : ∀ k a, List.lookup k s.accounts = some a → a.id = k) :
    (Utils.getOrCreateAccount s addr).id = bytesToHex addr := by
  unfold Utils.getOrCreateAccount
  cases h : List.lookup (bytesToHex addr) s.accounts with
  | none => rfl
  | some a => exact hs _ _ h

/-- A mint Transfer event (zero-address sender) to the fresh address [2]. -/
def mintToFreshEvent : TransferEvent :=
  { fromAddr := ZERO_ADDRESS, toAddr := [2], tokenId := 7, txHash := [9], logIndex := 1
    blockNumber := 1, blockTimestamp := 1, blockHash := [8], receipt := none }

/-- Claim C5: in `utils/logic.ts#handleTransfer`, for every Transfer whose
sender is the zero address (and a store whose accounts are filed under their
ids), the recipient account stored after the call has `mintCount` increased
by exactly one and `buyCount`/`saleCount` unchanged, and — when no
transaction with that id pre-exists, i.e. on first delivery — the stored
transaction has type MINT.  In `src/mappings/transactions.ts#handleTransfer`,
by contrast, a mint to a fresh account leaves its stored `mintCount` at 0:
that source doubles the count (`mintCount.plus(toAccount.mintCount)`)
instead of incrementing it. -/
theorem claim5_mint_classification :
    (∀ (s : Utils.Store) (ev : TransferEvent),
      (∀ k a, List.lookup k s.accounts = some a → a.id = k) →
      ev.fromAddr = ZERO_ADDRESS →
      ((List.lookup (bytesToHex ev.toAddr) (Utils.Logic.handleTransfer s ev).accounts).map
          (fun a => a.mintCount)
        = some ((Utils.getOrCreateAccount s ev.toAddr).mintCount + 1)
      ∧ (List.lookup (bytesToHex ev.toAddr) (Utils.Logic.handleTransfer s ev).accounts).map
          (fun a => a.buyCount)
        = some ((Utils.getOrCreateAccount s ev.toAddr).buyCount)
      ∧ (List.lookup (bytesToHex ev.toAddr) (Utils.Logic.handleTransfer s ev).accounts).map
          (fun a => a.saleCount)
        = some ((Utils.getOrCreateAccount s ev.toAddr).saleCount)
      ∧ (List.lookup (bytesToHex ev.txHash ++ "-" ++ intToHex ev.tokenId) s.transactions = none →
          (List.lookup (bytesToHex ev.txHash ++ "-" ++ intToHex ev.tokenId)
              (Utils.Logic.handleTransfer s ev).transactions).map (fun t => t.type)
            = some "MINT")))
    ∧ ((List.lookup (bytesToHex [2])
          (Utils.Mappings.handleTransfer Utils.emptyStore mintToFreshEvent).accounts).map
          (fun a => a.mintCount) = some 0) := by
  refine ⟨fun s ev hs hf => ?_, by decide⟩
  have hidTo := getOrCreateAccount_id s ev.toAddr hs
  have hidFrom := getOrCreateAccount_id s ev.fromAddr hs
  cases hlk : List.lookup (bytesToHex ev.txHash ++ "-" ++ intToHex ev.tokenId) s.transactions with
  | none =>
    refine ⟨?_, ?_, ?_, fun _ => ?_⟩ <;>
      simp [Utils.Logic.handleTransfer, Utils.loadOrCreateTransaction, hlk, hf,
        Utils.updateAccountTypes, Utils.saveAccount, Utils.saveLTransaction,
        hidTo, hidFrom, BIGINT_ONE, BIGINT_ZERO, lookup_upsert_self]
  | some t0 =>
    refine ⟨?_, ?_, ?_, fun h => ?_⟩
    · simp [Utils.Logic.handleTransfer, Utils.loadOrCreateTransaction, hlk, hf,
        Utils.updateAccountTypes, Utils.saveAccount, Utils.saveLTransaction,
        hidTo, hidFrom, BIGINT_ONE, BIGINT_ZERO, lookup_upsert_self]
    · simp [Utils.Logic.handleTransfer, Utils.loadOrCreateTransaction, hlk, hf,
        Utils.updateAccountTypes, Utils.saveAccount, Utils.saveLTransaction,
        hidTo, hidFrom, BIGINT_ONE, BIGINT_ZERO, lookup_upsert_self]
    · simp [Utils.Logic.handleTransfer, Utils.loadOrCreateTransaction, hlk, hf,
        Utils.updateAccountTypes, Utils.saveAccount, Utils.saveLTransaction,
        hidTo, hidFrom, BIGINT_ONE, BIGINT_ZERO, lookup_upsert_self]
    · exact Option.noConfusion h

/-- Claim C5 witness: the first part of the theorem applied at the concrete
mint event over the empty store, discharging the well-keyed-store, the
zero-sender and the first-delivery hypotheses. -/
theorem claim5_witness :
    (List.lookup (bytesToHex [2])
        (Utils.Logic.handleTransfer Utils.emptyStore mintToFreshEvent).accounts).map
        (fun a => a.mintCount)
      = some ((Utils.getOrCreateAccount Utils.emptyStore mintToFreshEvent.toAddr).mintCount + 1)
    ∧ (List.lookup (bytesToHex mintToFreshEvent.txHash ++ "-" ++ intToHex mintToFreshEvent.tokenId)
        (Utils.Logic.handleTransfer Utils.emptyStore mintToFreshEvent).transactions).map
        (fun t => t.type) = some "MINT" :=
  ⟨(claim5_mint_classification.1 Utils.emptyStore mintToFreshEvent
      (by intro k a h; simp [Utils.emptyStore, List.lookup] at h) (by decide)).1,
   (claim5_mint_classification.1 Utils.emptyStore mintToFreshEvent
      (by intro k a h; simp [Utils.emptyStore, List.lookup] at h) (by decide)).2.2.2 (by decide)⟩

/-!
## Claim C6 — unrecoverable token id / seller
-/

/-- An OrdersMatched event whose receipt contains no logs, so no token id can
be recovered from sibling logs. -/
def unrecoverableEvent : OrdersMatchedEvent :=
  { maker := [3], taker := [4], price := 50, tokenId := 0
    txHash := [9], logIndex := 2, blockNumber := 1, blockTimestamp := 1
    receipt := some { logs := [] } }

/-- Claim C6 counterexample: for an OrdersMatched event whose token id cannot
be recovered (`extractTokenIdFromLogs` returns null), `handleOpenSea` does
NOT leave the store unchanged — it writes entities anyway. -/
theorem claim6_counterexample_store_written :
    Helpers.extractTokenIdFromLogs unrecoverableEvent.receipt = none
    ∧ Helpers.handleOpenSea Helpers.emptyStore unrecoverableEvent ≠ Helpers.emptyStore := by
  decide

/-- Claim C6 (amended): `createOrdersMatched` (utils/transactionHelper.ts)
does log and return with the store unchanged whenever the token id cannot be
recovered from the stored sibling-log record (the seller is read from the
same record, so the seller-null guard adds no further case); but
`handleOpenSea` (mappings/transactions.ts) still creates and saves the
Transaction entity and both Account entities when the token id is
unrecoverable — only the CovenToken write and the referenceId update are
skipped. -/
theorem claim6_amended_no_partial_writes :
    (∀ (s : Utils.Store) (ev : OrdersMatchedEvent),
      Utils.getTokenId s ev.txHash ev.logIndex = none →
      Utils.createOrdersMatched s ev = s)
    ∧ ((List.lookup (Helpers.getTransactionId [9] 2)
          (Helpers.handleOpenSea Helpers.emptyStore unrecoverableEvent).transactions).isSome = true
      ∧ (Helpers.handleOpenSea Helpers.emptyStore unrecoverableEvent).covenTokens = []
      ∧ (List.lookup (bytesToHex [4])
          (Helpers.handleOpenSea Helpers.emptyStore unrecoverableEvent).accounts).isSome = true
      ∧ (List.lookup (bytesToHex [3])
          (Helpers.handleOpenSea Helpers.emptyStore unrecoverableEvent).accounts).isSome = true) := by
  refine ⟨fun s ev h => ?_, by decide⟩
  simp [Utils.createOrdersMatched, h]

/-- Claim C6 amended witness: the store-unchanged part applied at the empty
store and the concrete unrecoverable event. -/
theorem claim6_witness :
    Utils.getTokenId Utils.emptyStore unrecoverableEvent.txHash unrecoverableEvent.logIndex = none
    ∧ Utils.createOrdersMatched Utils.emptyStore unrecoverableEvent = Utils.emptyStore :=
  ⟨by decide,
   claim6_amended_no_partial_writes.1 Utils.emptyStore unrecoverableEvent (by decide)⟩
